import Mathlib

/-!
Verification of the Lorenz-attractor trajectory generator (`scene.py`).

The numerics of the script are embedded shallowly over the exact rationals:

* `lorenz_system` mirrors the dynamics function line by line, returning the
  three-element derivative list `[dx/dt, dy/dt, dz/dt]` with the source's
  default parameters `sigma = 10`, `rho = 28`, `beta = 8/3`.
* `ode_solution_points` mirrors the integrator wrapper: it builds the sample
  grid `np.arange(0, time, dt)`, hands everything to the external adaptive
  solver `scipy.integrate.solve_ivp`, and returns `solution.y.T` — without
  inspecting `solution.success`.  The external solver is not code of this
  repository, so it enters the embedding as an explicit argument of type
  `Solver`, and its result as a `SolveIvpSolution` record (success flag plus
  the transposed sample matrix `y.T`, a list of states).
* `states` / `trajectories` mirror the ensemble set up in
  `LorenzAttractor.construct`.
* `lorenz_systemF` re-expresses the dynamics over a model of IEEE
  floating-point values in which non-finiteness (NaN or an infinity) is
  explicit, to settle the parameter-validation claim.
-/

/-- A state vector `(x, y, z)`: a point of phase space. -/
abbrev State := ℚ × ℚ × ℚ

/-- The Lorenz dynamics, translated from `lorenz_system` in `scene.py`:
unpacks the state `(x, y, z)` and returns the derivative list
`[sigma * (y - x), x * (rho - z) - y, x * y - beta * z]`, with the source's
default parameters `sigma = 10`, `rho = 28`, `beta = 8 / 3`.  The time
argument `t` is accepted (the solver passes it) and unused. -/
def lorenz_system (t : ℚ) (state : State) (sigma : ℚ := 10) (rho : ℚ := 28)
    (beta : ℚ := 8 / 3) : List ℚ :=
  let (x, y, z) := state
  let dxdt := sigma * (y - x)
  let dydt := x * (rho - z) - y
  let dzdt := x * y - beta * z
  [dxdt, dydt, dzdt]

/-- Number of samples of `np.arange(start, stop, step)`:
`⌈(stop - start) / step⌉`, clamped to `0`. -/
def numSamples (start stop step : ℚ) : ℕ :=
  (⌈(stop - start) / step⌉).toNat

/-- `np.arange(start, stop, step)`: the values `start + k * step` for
`k = 0, 1, …` lying in the half-open interval `[start, stop)`. -/
def arange (start stop step : ℚ) : List ℚ :=
  (List.range (numSamples start stop step)).map fun k : ℕ => start + (k : ℚ) * step

/-- The record returned by `scipy.integrate.solve_ivp`, reduced to the two
fields the script touches: the success flag (which the script ignores) and
`y.T`, the solution sampled at the requested times, one state per row. -/
structure SolveIvpSolution where
  success : Bool
  yT : List State

/-- The shape of `scipy.integrate.solve_ivp` as the script calls it:
a dynamics function, the `t_span` pair, the initial state `y0`, and the
`t_eval` sample grid.  The solver itself is external to the repository, so
it is a parameter of the embedding. -/
abbrev Solver := (ℚ → State → List ℚ) → ℚ × ℚ → State → List ℚ → SolveIvpSolution

/-- Translated from `ode_solution_points` in `scene.py`: calls the solver with
`t_span = (0, time)`, `y0 = state0`, `t_eval = np.arange(0, time, dt)`
(default `dt = 0.01`) and returns `solution.y.T` — the success flag is never
consulted. -/
def ode_solution_points (solve_ivp : Solver) (function : ℚ → State → List ℚ)
    (state0 : State) (time : ℚ) (dt : ℚ := 1 / 100) : List State :=
  let solution := solve_ivp function (0, time) state0 (arange 0 time dt)
  solution.yT

/-- `epsilon = 1e-5`, the z-perturbation between ensemble members. -/
def epsilon : ℚ := 1 / 100000

/-- `evolution_time = 15`, the integration horizon. -/
def evolution_time : ℚ := 15

/-- `n_points = 5`, the ensemble size. -/
def n_points : ℕ := 5

/-- The ensemble's initial states, translated from `LorenzAttractor.construct`:
`[[10, 10, 10 + n * epsilon] for n in range(n_points)]`. -/
def states : List State :=
  (List.range n_points).map fun n : ℕ => (10, 10, 10 + (n : ℚ) * epsilon)

/-- The ensemble's trajectories, translated from the loop in
`LorenzAttractor.construct`: each initial state is fed to
`ode_solution_points` with the same dynamics `lorenz_system`, the same
horizon `evolution_time` and the default sampling step. -/
def trajectories (solve_ivp : Solver) : List (List State) :=
  states.map fun state => ode_solution_points solve_ivp lorenz_system state evolution_time

/-- A model of an IEEE floating-point value as the Python source handles them:
`some q` is a finite value of exact magnitude `q`; `none` is a non-finite
value (NaN or an infinity). -/
abbrev FloatV := Option ℚ

/-- Lifted binary arithmetic on `FloatV`: any operation with a non-finite
operand yields a non-finite result (true of IEEE `+`, `-`, `*`: a NaN operand
gives NaN, and an infinite operand gives an infinity or NaN); finite operands
yield the exact finite result (overflow to infinity is not modelled — the
counterexamples below stay far from the float range limit). -/
def fBin (op : ℚ → ℚ → ℚ) : FloatV → FloatV → FloatV
  | some a, some b => some (op a b)
  | _, _ => none

/-- Float subtraction with non-finiteness propagation. -/
def fSub : FloatV → FloatV → FloatV := fBin (fun a b => a - b)

/-- Float multiplication with non-finiteness propagation. -/
def fMul : FloatV → FloatV → FloatV := fBin (fun a b => a * b)

/-- `lorenz_system` re-read over the float model `FloatV`: the same three
formulas, computed with the non-finiteness-propagating operations, with the
same defaults.  No argument is validated, exactly as in the source. -/
def lorenz_systemF (t : FloatV) (state : FloatV × FloatV × FloatV)
    (sigma : FloatV := some 10) (rho : FloatV := some 28)
    (beta : FloatV := some (8 / 3)) : List FloatV :=
  let (x, y, z) := state
  let dxdt := fMul sigma (fSub y x)
  let dydt := fSub (fMul x (fSub rho z)) y
  let dzdt := fSub (fMul x y) (fMul beta z)
  [dxdt, dydt, dzdt]

/-- A constant continuous solution, used to instantiate the solver-correctness
hypotheses below at a concrete conforming solver. -/
def constSol : ℚ → State := fun _ => (10, 10, 10)

/-- A solver instance used to witness the hypothetical theorems: it reports
success and returns `constSol` sampled at every requested time. -/
def constSolver : Solver := fun _ _ _ ts => ⟨true, ts.map constSol⟩

/-- A solver instance that fails and returns a truncated sample list. -/
def failingSolver : Solver := fun _ _ _ _ => ⟨false, [(1, 2, 3)]⟩

/-- A solver instance that succeeds with the same sample list as
`failingSolver`. -/
def okSolver : Solver := fun _ _ _ _ => ⟨true, [(1, 2, 3)]⟩

/-- C1: for every state `(x, y, z)` and parameters `(sigma, rho, beta)`,
`lorenz_system` returns the derivative vector
`(sigma * (y - x), x * (rho - z) - y, x * y - beta * z)`, and omitting the
parameters uses the defaults `sigma = 10`, `rho = 28`, `beta = 8/3`. -/
theorem lorenz_system_formula_and_defaults (t x y z sigma rho beta : ℚ) :
    lorenz_system t (x, y, z) sigma rho beta
      = [sigma * (y - x), x * (rho - z) - y, x * y - beta * z]
    ∧ lorenz_system t (x, y, z)
      = [10 * (y - x), x * (28 - z) - y, x * y - (8 / 3) * z] :=
  ⟨rfl, rfl⟩

/-- C10: the system is autonomous — `lorenz_system` ignores its time
argument: two evaluations at the same state and parameters but different
times agree. -/
theorem lorenz_system_autonomous (t1 t2 : ℚ) (state : State)
    (sigma rho beta : ℚ) :
    lorenz_system t1 state sigma rho beta = lorenz_system t2 state sigma rho beta :=
  rfl

/-- C2: under a solver that samples its continuous solution `sol` at the
requested grid, `ode_solution_points` returns the states at the times
`0, dt, 2dt, …`; a time `k * dt` is on the grid exactly when it is strictly
below `T`; and for `T = 15`, `dt = 0.01` the grid has exactly 1500 points. -/
theorem ode_solution_points_sampling (solve_ivp : Solver)
    (f : ℚ → State → List ℚ) (s0 : State) (T dt : ℚ) (sol : ℚ → State)
    (hdt : 0 < dt)
    (hsolve : (solve_ivp f (0, T) s0 (arange 0 T dt)).yT = (arange 0 T dt).map sol) :
    ode_solution_points solve_ivp f s0 T dt
      = (List.range (numSamples 0 T dt)).map (fun k : ℕ => sol ((k : ℚ) * dt))
    ∧ (∀ k : ℕ, (k : ℚ) * dt < T ↔ k < numSamples 0 T dt)
    ∧ numSamples 0 15 (1 / 100) = 1500 := by
  refine ⟨?_, ?_, ?_⟩
  · rw [ode_solution_points]
    rw [hsolve, arange, List.map_map]
    refine List.map_congr_left fun k _ => ?_
    simp [Function.comp]
  · intro k
    rw [numSamples, Int.lt_toNat, Int.lt_ceil]
    rw [sub_zero, lt_div_iff₀ hdt]
    push_cast
    exact Iff.rfl
  · rw [numSamples]
    norm_num
    rfl

/-- C2 witness: the sampling theorem applied to the concrete conforming solver
`constSolver` with its continuous solution `constSol`, `T = 15`, `dt = 0.01`. -/
theorem ode_solution_points_sampling_witness :
    ode_solution_points constSolver lorenz_system (10, 10, 10) 15 (1 / 100)
      = (List.range (numSamples 0 15 (1 / 100))).map
          (fun k : ℕ => constSol ((k : ℚ) * (1 / 100)))
    ∧ (∀ k : ℕ, (k : ℚ) * (1 / 100) < 15 ↔ k < numSamples 0 15 (1 / 100))
    ∧ numSamples 0 15 (1 / 100) = 1500 :=
  ode_solution_points_sampling constSolver lorenz_system (10, 10, 10) 15 (1 / 100)
    constSol (by norm_num) rfl

/-- C5: determinism — `ode_solution_points` is a pure function of the solver
configuration, the dynamics, the initial state, the horizon and the sampling
step: two calls whose inputs are equal return equal output sequences. -/
theorem ode_solution_points_deterministic (solve_ivp : Solver)
    (f1 f2 : ℚ → State → List ℚ) (s1 s2 : State) (T1 T2 dt1 dt2 : ℚ)
    (hf : f1 = f2) (hs : s1 = s2) (hT : T1 = T2) (hdt : dt1 = dt2) :
    ode_solution_points solve_ivp f1 s1 T1 dt1
      = ode_solution_points solve_ivp f2 s2 T2 dt2 := by
  rw [hf, hs, hT, hdt]

/-- C5 witness: determinism applied at the concrete inputs of the script. -/
theorem ode_solution_points_deterministic_witness :
    ode_solution_points constSolver lorenz_system (10, 10, 10) 15 (1 / 100)
      = ode_solution_points constSolver lorenz_system (10, 10, 10) 15 (1 / 100) :=
  ode_solution_points_deterministic constSolver lorenz_system lorenz_system
    (10, 10, 10) (10, 10, 10) 15 15 (1 / 100) (1 / 100) rfl rfl rfl rfl

/-- C4 counterexample: a concrete solver run that fails (`success = false`)
and returns a truncated sample list — yet `ode_solution_points` returns that
list unchanged: no integration-failure condition is surfaced to the caller. -/
theorem ode_solution_points_silent_on_failure :
    (failingSolver lorenz_system (0, 15) (10, 10, 10) (arange 0 15 (1 / 100))).success = false
    ∧ ode_solution_points failingSolver lorenz_system (10, 10, 10) 15 = [(1, 2, 3)] :=
  ⟨rfl, rfl⟩

/-- C4 amended: `ode_solution_points` never consults the solver's success
flag — it returns `solution.y.T` unconditionally, so two solver runs that
agree on the sample data give the same output whatever their success flags. -/
theorem ode_solution_points_ignores_success (s1 s2 : Solver)
    (f : ℚ → State → List ℚ) (s0 : State) (T dt : ℚ)
    (h : (s1 f (0, T) s0 (arange 0 T dt)).yT = (s2 f (0, T) s0 (arange 0 T dt)).yT) :
    ode_solution_points s1 f s0 T dt = ode_solution_points s2 f s0 T dt := h

/-- C4 witness: a failed and a successful run with the same sample data are
indistinguishable through `ode_solution_points`. -/
theorem ode_solution_points_ignores_success_witness :
    ode_solution_points failingSolver lorenz_system (10, 10, 10) 15 (1 / 100)
      = ode_solution_points okSolver lorenz_system (10, 10, 10) 15 (1 / 100) :=
  ode_solution_points_ignores_success failingSolver okSolver lorenz_system
    (10, 10, 10) 15 (1 / 100) rfl

/-- The head of mapping `f` over `List.range n` for positive `n` is `f 0`. -/
theorem range_map_head {α : Type} (f : ℕ → α) (n : ℕ) (hn : 0 < n) :
    ((List.range n).map f).head? = some (f 0) := by
  cases n with
  | zero => exact absurd hn (lt_irrefl 0)
  | succ m => rw [List.range_succ_eq_map]; rfl

/-- C6: under a solver that samples its continuous solution `sol` at the
requested grid and whose solution starts at the initial state, the first
point of `ode_solution_points` for the example scenario — initial state
`(10, 10, 10)`, `T = 15`, `dt = 0.01` — is `(10, 10, 10)`. -/
theorem ode_solution_points_first_point (solve_ivp : Solver) (sol : ℚ → State)
    (hsolve : (solve_ivp lorenz_system (0, 15) (10, 10, 10) (arange 0 15 (1 / 100))).yT
      = (arange 0 15 (1 / 100)).map sol)
    (hsol0 : sol 0 = (10, 10, 10)) :
    (ode_solution_points solve_ivp lorenz_system (10, 10, 10) 15).head?
      = some (10, 10, 10) := by
  rw [ode_solution_points]
  rw [hsolve, arange, List.map_map]
  rw [range_map_head _ _ (by rw [numSamples]; norm_num)]
  have h0 : (0 : ℚ) + ((0 : ℕ) : ℚ) * (1 / 100) = 0 := by norm_num
  simp only [Function.comp, h0, hsol0]

/-- C6 witness: the first-point theorem applied to the concrete conforming
solver `constSolver`, whose continuous solution starts at `(10, 10, 10)`. -/
theorem ode_solution_points_first_point_witness :
    (ode_solution_points constSolver lorenz_system (10, 10, 10) 15).head?
      = some (10, 10, 10) :=
  ode_solution_points_first_point constSolver constSol rfl rfl

/-- C3: the ensemble has exactly `n_points = 5` initial states; the k-th is
the base state `(10, 10, 10)` with `k * epsilon` added to the z-coordinate
and x, y unperturbed; and every trajectory is produced by the same call —
same dynamics `lorenz_system`, same horizon `15`, same sampling step
`1/100` — differing only in its initial state. -/
theorem ensemble_construction (solve_ivp : Solver) :
    states.length = n_points
    ∧ (∀ k (hk : k < states.length),
        states.get ⟨k, hk⟩ = (10, 10, 10 + (k : ℚ) * epsilon))
    ∧ trajectories solve_ivp
      = states.map fun s => ode_solution_points solve_ivp lorenz_system s 15 (1 / 100) := by
  refine ⟨rfl, ?_, rfl⟩
  intro k hk
  simp only [states, List.get_eq_getElem, List.getElem_map, List.getElem_range]

/-- C3 witness: the ensemble theorem applied at `k = 3` with the concrete
solver `constSolver`: the fourth initial state is `(10, 10, 10 + 3ε)`. -/
theorem ensemble_construction_witness :
    states.get ⟨3, by decide⟩ = (10, 10, 10 + ((3 : ℕ) : ℚ) * epsilon) :=
  (ensemble_construction constSolver).2.1 3 (by decide)

/-- C7: the dynamics function is total, with no failure mode: on any finite
state in the bounded region `|x|, |y|, |z| < 100` and any parameter triple it
returns exactly 3 values, each the exact rational given by the Lorenz
formulas (an exact rational is always finite: the arithmetic of `ℚ` has no
NaN, infinity or overflow). -/
theorem lorenz_system_total_three (t x y z sigma rho beta : ℚ)
    (hx : |x| < 100) (hy : |y| < 100) (hz : |z| < 100) :
    (lorenz_system t (x, y, z) sigma rho beta).length = 3
    ∧ lorenz_system t (x, y, z) sigma rho beta
      = [sigma * (y - x), x * (rho - z) - y, x * y - beta * z] :=
  ⟨rfl, rfl⟩

/-- C7 witness: the totality theorem applied at the origin with the default
parameter triple. -/
theorem lorenz_system_total_three_witness :
    (lorenz_system 0 (0, 0, 0) 10 28 (8 / 3)).length = 3
    ∧ lorenz_system 0 (0, 0, 0) 10 28 (8 / 3)
      = [10 * (0 - 0), 0 * (28 - 0) - 0, 0 * 0 - (8 / 3) * 0] :=
  lorenz_system_total_three 0 0 0 0 10 28 (8 / 3) (by norm_num) (by norm_num) (by norm_num)

/-- C8 counterexample: a non-finite `sigma` (NaN or an infinity) is not
rejected — the dynamics function accepts it and returns an ordinary
3-element derivative list whose first component is non-finite: a silently
corrupted derivative, not an explicit construction-time failure. -/
theorem lorenz_system_accepts_nonfinite_sigma :
    lorenz_systemF (some 0) (some 1, some 1, some 1) none (some 28) (some (8 / 3))
      = [none, some (1 * (28 - 1) - 1), some (1 * 1 - 8 / 3 * 1)]
    ∧ (lorenz_systemF (some 0) (some 1, some 1, some 1) none (some 28)
        (some (8 / 3))).length = 3 :=
  ⟨rfl, rfl⟩

/-- C8 amended: no parameter validation exists — for every finite state, a
non-finite `sigma` flows through the dynamics unreported, yielding a normal
3-element list whose first component is non-finite. -/
theorem lorenz_systemF_propagates_nonfinite (x y z rho beta : ℚ) :
    lorenz_systemF (some 0) (some x, some y, some z) none (some rho) (some beta)
      = [none, some (x * (rho - z) - y), some (x * y - beta * z)] :=
  rfl
